import Mathlib

/-!
Shallow embedding of `k800_can_utility.py` (OnLogic K800 CAN bus utility).

The script is single-threaded straight-line code plus one polling loop, so we
model it as pure functions producing an event trace: serial writes, settle
delays, CAN sends/receives, console logging, and resource teardown.  The
management serial port is modelled as explicit state (lines written so far,
bytes currently buffered from the device).  Python integers are `Int`,
byte strings are `List Nat`, and Python truthiness of the optional
`location` argument is modelled with `Option String` (with the empty string
treated as falsy, exactly as Python does).
-/

namespace K800

/-! ### Substring search (Python's `in` operator on strings) -/

/-- Does `hay` start with `needle`?  Char-list level, kernel-computable. -/
def startsWithChars : List Char → List Char → Bool
  | _, [] => true
  | [], _ :: _ => false
  | c :: cs, d :: ds => c == d && startsWithChars cs ds

/-- Does `hay` contain `needle` as a contiguous substring? -/
def containsChars : List Char → List Char → Bool
  | hay, needle =>
    match hay with
    | [] => needle.isEmpty
    | _ :: rest => startsWithChars hay needle || containsChars rest needle

/-- Python's `needle in hay` on strings. -/
def containsSub (hay needle : String) : Bool :=
  containsChars hay.data needle.data

/-! ### Port locator (`get_device_port`, source lines 113-122) -/

/-- One entry of `serial.tools.list_ports.comports()`. -/
structure PortInfo where
  hwid : String
  location : String
  device : String
deriving Repr, DecidableEq

/-- Lexicographic comparison of char lists by code point: Python's string
`<=` ordering. -/
def charListLe : List Char → List Char → Bool
  | [], _ => true
  | _ :: _, [] => false
  | c :: cs, d :: ds =>
    Nat.blt c.toNat d.toNat || (Nat.beq c.toNat d.toNat && charListLe cs ds)

/-- Python's `a <= b` on strings. -/
def strLe (a b : String) : Bool :=
  charListLe a.data b.data

/-- Insertion into a list sorted ascending by `device` (pyserial's
`ListPortInfo.__lt__` compares the `device` field). -/
def insertPort (p : PortInfo) : List PortInfo → List PortInfo
  | [] => [p]
  | q :: qs => if strLe p.device q.device then p :: q :: qs else q :: insertPort p qs

/-- `sorted(all_ports)`: insertion sort ascending by `device`. -/
def sortPorts (ps : List PortInfo) : List PortInfo :=
  ps.foldr insertPort []

/-- The `for port in sorted(all_ports)` loop body of `get_device_port`:
a port is returned only when `dev_id in port.hwid` AND the Python-truthy
test `location and location in port.location` both pass; otherwise the loop
continues with the next port. -/
def scanPorts (dev_id : String) (location : Option String) :
    List PortInfo → Option String
  | [] => none
  | p :: rest =>
    if containsSub p.hwid dev_id then
      match location with
      | some loc =>
        if loc.length ≠ 0 ∧ containsSub p.location loc then some p.device
        else scanPorts dev_id location rest
      | none => scanPorts dev_id location rest
    else scanPorts dev_id location rest

/-- `get_device_port(dev_id, location=None)` over a given enumeration of
attached ports (the result of `comports()`). -/
def get_device_port (dev_id : String) (location : Option String)
    (all_ports : List PortInfo) : Option String :=
  scanPorts dev_id location (sortPorts all_ports)

/-- `MCU_VID_PID = '353F:A101'` (source line 68). -/
def MCU_VID_PID : String := "353F:A101"

/-- `valid_bit_rates` (source line 76). -/
def valid_bit_rates : List Int := [10, 20, 50, 100, 125, 250, 500, 750, 1000]

/-! ### Oscillating counter (`inc_dec_data_string`, source lines 81-90) -/

/-- The global mutable pair `number`, `is_increment`. -/
structure CounterState where
  number : Int
  is_increment : Bool
deriving Repr, DecidableEq

/-- `inc_dec_data_string(low, high)`: updates the direction flag at the
bounds, moves `number` one step, and returns the payload string together
with the updated global state.  The Python defaults are `low=0, high=9`. -/
def inc_dec_data_string (low high : Int) (s : CounterState) :
    String × CounterState :=
  let inc : Bool :=
    if s.number = low then true
    else if s.number = high then false
    else s.is_increment
  let n : Int := s.number + (if inc then 1 else -1)
  ("K800_" ++ toString n, ⟨n, inc⟩)

/-- One state transition of the counter at the default bounds 0, 9. -/
def inc_dec_step (s : CounterState) : CounterState :=
  (inc_dec_data_string 0 9 s).2

/-- `number = 0`, `is_increment = True` — the initialisation in `main`
(source lines 187-189). -/
def initState : CounterState := ⟨0, true⟩

/-- Counter state after `n` calls, starting from `initState`. -/
def stateAt (n : Nat) : CounterState :=
  inc_dec_step^[n] initState

/-- The value returned by the `n`-th call (0-indexed) of
`inc_dec_data_string()` starting from `initState`. -/
def outputAt (n : Nat) : Int :=
  (stateAt (n + 1)).number

/-- The payload string produced by the `n`-th call. -/
def payloadAt (n : Nat) : String :=
  "K800_" ++ toString (outputAt n)

/-- One period of the triangle wave the counter emits. -/
def trianglePattern : List Int :=
  [1, 2, 3, 4, 5, 6, 7, 8, 9, 8, 7, 6, 5, 4, 3, 2, 1, 0]

/-- One period of the payload sequence. -/
def payloadPattern : List String :=
  trianglePattern.map (fun z => "K800_" ++ toString z)

/-! ### Management serial port state -/

/-- State of the open management serial port: the command lines written so
far (in order) and the response bytes currently buffered by the device. -/
structure MgmtPort where
  written : List String
  buffered : List Nat
deriving Repr, DecidableEq

/-- `port.write(s.encode())`: appends the line to the write history. -/
def portWrite (p : MgmtPort) (s : String) : MgmtPort :=
  { p with written := p.written ++ [s] }

/-- `port.inWaiting()`: number of bytes currently buffered. -/
def inWaiting (p : MgmtPort) : Nat :=
  p.buffered.length

/-- `port.read(n)`: takes the first `n` buffered bytes. -/
def portRead (p : MgmtPort) (n : Nat) : List Nat × MgmtPort :=
  (p.buffered.take n, { p with buffered := p.buffered.drop n })

/-! ### Observable events of a session -/

/-- A CAN frame as built by `can.Message(...)`. -/
structure CanMessage where
  arbitration_id : Nat
  is_extended_id : Bool
  data : List Nat
deriving Repr, DecidableEq

/-- UTF-8 encoding of the (ASCII) payload strings the script produces. -/
def utf8 (s : String) : List Nat :=
  s.data.map Char.toNat

/-- Observable effects of the script, in program order.  `logSent m` and
`logRecv m` stand for the console prints whose content is determined by the
frame `m`. -/
inductive Event where
  | portScan
  | serialOpen
  | busOpen
  | mgmtWrite (line : String)
  | mgmtReadBuffered
  | printBytes (bs : List Nat)
  | printLine (s : String)
  | sleep (ms : Nat)
  | canSend (m : CanMessage)
  | logSent (m : CanMessage)
  | canRecv (m : CanMessage)
  | logRecv (m : CanMessage)
  | resetInput
  | resetOutput
  | busShutdown
  | portClose
deriving Repr, DecidableEq

/-- Frames written to the CAN channel, in order. -/
def sentOf (tr : List Event) : List CanMessage :=
  tr.filterMap fun e =>
    match e with
    | .canSend m => some m
    | _ => none

/-- Frames delivered by the CAN channel, in order. -/
def recvOf (tr : List Event) : List CanMessage :=
  tr.filterMap fun e =>
    match e with
    | .canRecv m => some m
    | _ => none

/-- Frames logged to the console as received, in order. -/
def loggedRecvOf (tr : List Event) : List CanMessage :=
  tr.filterMap fun e =>
    match e with
    | .logRecv m => some m
    | _ => none

/-- Is the event a port enumeration or any device I/O (serial or CAN)? -/
def deviceEffect (e : Event) : Bool :=
  match e with
  | .portScan => true
  | .serialOpen => true
  | .busOpen => true
  | .mgmtWrite _ => true
  | .mgmtReadBuffered => true
  | .canSend _ => true
  | .canRecv _ => true
  | .resetInput => true
  | .resetOutput => true
  | .busShutdown => true
  | .portClose => true
  | _ => false

/-! ### Device command channel (`configure_can`, `set_led_status`) -/

/-- The `set can-mode` command line. -/
def modeCmd (interface mode : String) : String :=
  "set can-mode " ++ interface ++ " " ++ mode ++ "\r\n"

/-- The `set can-baudrate` command line. -/
def baudCmd (interface baud : String) : String :=
  "set can-baudrate " ++ interface ++ " " ++ baud ++ "\r\n"

/-- `configure_can(port, interface, mode, baud)` (source lines 104-110):
write the mode command, sleep 0.1 s, write the baud command, sleep 0.1 s,
then `print(port.read(port.inWaiting()).decode())`.  Returns the new port
state and the event trace. -/
def configure_can (port : MgmtPort) (interface mode baud : String) :
    MgmtPort × List Event :=
  let p1 := portWrite port (modeCmd interface mode)
  let p2 := portWrite p1 (baudCmd interface baud)
  let r := portRead p2 (inWaiting p2)
  (r.2,
    [Event.mgmtWrite (modeCmd interface mode), Event.sleep 100,
     Event.mgmtWrite (baudCmd interface baud), Event.sleep 100,
     Event.mgmtReadBuffered, Event.printBytes r.1])

/-- A Python value that can sit in the `is_led` argument: either one of the
strings `'off'`/`'on'` from argparse, or a bool (e.g. the default `False`
of `set_led_status`).  Python's `==` between a bool and a string is `False`. -/
inductive PyVal where
  | pyStr (s : String)
  | pyBool (b : Bool)
deriving Repr, DecidableEq

/-- The `dio set LED0 {i} {str(status).lower()}\r\n` command line. -/
def ledCommand (i : Nat) (status : Bool) : String :=
  "dio set LED0 " ++ toString i ++ " " ++
    (if status then "true" else "false") ++ "\r\n"

/-- The four LED command lines, in index order (`LED_COUNT = 4`). -/
def ledWrites (status : Bool) : List String :=
  (List.range 4).map fun i => ledCommand i status

/-- `set_led_status(port, is_led, status)` (source lines 93-101): returns
immediately when `is_led == 'off'` or the port is falsy, else writes the
four LED commands each followed by a 0.1 s sleep.  `portTruthy` is the
Python truthiness of the `port` argument. -/
def set_led_status (port : MgmtPort) (portTruthy : Bool) (is_led : PyVal)
    (status : Bool) : MgmtPort × List Event :=
  if is_led = PyVal.pyStr "off" ∨ portTruthy = false then (port, [])
  else
    ((ledWrites status).foldl portWrite port,
     ((ledWrites status).map fun c => [Event.mgmtWrite c, Event.sleep 100]).flatten)

/-! ### CAN session loop and `main` (source lines 135-223) -/

/-- The send-loop body, iterated `k` times threading the counter state:
generate the data string, build the extended-id `0x123` frame with the
UTF-8 payload, send it, log it, sleep 0.1 s. -/
def sendLoop : CounterState → Nat → List Event × CounterState
  | s, 0 => ([], s)
  | s, Nat.succ k =>
    let r := inc_dec_data_string 0 9 s
    let msg : CanMessage := ⟨0x123, true, utf8 r.1⟩
    let rest := sendLoop r.2 k
    (Event.canSend msg :: Event.logSent msg :: Event.sleep 100 :: rest.1,
     rest.2)

/-- The receive-loop trace after `n` iterations, where `frames i` is the
`i`-th frame the bus delivers: each `bus.recv()` is immediately followed by
the print of the received frame. -/
def recvTrace (frames : Nat → CanMessage) : Nat → List Event
  | 0 => []
  | Nat.succ n =>
    recvTrace frames n ++ [Event.canRecv (frames n), Event.logRecv (frames n)]

/-- How the infinite `while True` loop ends: either the operator's
`KeyboardInterrupt` or some other unexpected exception with message `msg`. -/
inductive LoopEnd where
  | interrupted
  | errored (msg : String)
deriving Repr, DecidableEq

/-- Environment of one run of `main`: the serial ports attached at startup,
the device bytes initially buffered on the management port, the number of
completed loop iterations before the loop raises, how it raises, and the
frames the bus delivers in receive mode. -/
structure Env where
  ports : List PortInfo
  initialBuffered : List Nat
  steps : Nat
  ending : LoopEnd
  frames : Nat → CanMessage

/-- Final fate of the process in the model. -/
inductive Outcome where
  | exited (code : Nat)
  | finished
deriving Repr, DecidableEq

/-- The console message printed on an invalid bit rate (source line 148). -/
def invalidBitRateMsg : String :=
  "Error: Invalid bit_rate. Please enter a value between 1 and 1000 kbps."

/-- The console message printed when the MCU ports are not found. -/
def mcuNotFoundMsg : String :=
  "Error: K800 MCU not found. Please check configurations and connections."

/-- The events printed by the `except` clauses (source lines 213-216). -/
def endEvents : LoopEnd → List Event
  | .interrupted => [Event.printLine "\nOperation terminated by user."]
  | .errored msg => [Event.printLine ("An error occurred: " ++ msg)]

/-- The `finally` block (source lines 217-223): settle delay, reset both
serial buffers, drive the LEDs off, shut the bus down, close the port. -/
def teardownEvents (port : MgmtPort) (is_led : PyVal) : List Event :=
  [Event.sleep 1000, Event.resetInput, Event.resetOutput]
    ++ (set_led_status port true is_led false).2
    ++ [Event.busShutdown, Event.portClose]

/-- The loop trace, selected exactly as the source does: the send branch
runs iff `mode == 's'`, anything else falls to the receive branch. -/
def loopEvents (mode : String) (env : Env) : List Event :=
  if mode = "s" then (sendLoop initState env.steps).1
  else recvTrace env.frames env.steps

/-- Management port state after `serial.Serial(mgmt_port)`, the priming
`port.write(b'\r\n')` and the drain `port.read(port.inWaiting())`
(source lines 160-167). -/
def mgmtAfterPrime (env : Env) : MgmtPort :=
  let p1 := portWrite ⟨[], env.initialBuffered⟩ "\r\n"
  (portRead p1 (inWaiting p1)).2

/-- Port state and events of the `configure_can(port, 'VCAN0', 'slcan',
str(bit_rate))` call in `main`. -/
def mgmtAfterConfig (bit_rate : Int) (env : Env) : MgmtPort × List Event :=
  configure_can (mgmtAfterPrime env) "VCAN0" "slcan" (toString bit_rate)

/-- Port state and events of the `set_led_status(port, is_led, status=True)`
call in `main`. -/
def mgmtAfterLed (bit_rate : Int) (is_led : PyVal) (env : Env) :
    MgmtPort × List Event :=
  set_led_status (mgmtAfterConfig bit_rate env).1 true is_led true

/-- Everything `main` does between resolving the ports and entering the
session loop (source lines 160-189). -/
def preLoopEvents (mode : String) (bit_rate : Int) (is_led : PyVal)
    (env : Env) : List Event :=
  [Event.portScan, Event.portScan, Event.serialOpen,
   Event.mgmtWrite "\r\n", Event.sleep 100, Event.mgmtReadBuffered,
   Event.printLine "Configuring CAN port..."]
    ++ (mgmtAfterConfig bit_rate env).2
    ++ (mgmtAfterLed bit_rate is_led env).2
    ++ [Event.busOpen,
        Event.printLine
          ("Starting CAN bus "
            ++ (if mode = "s" then "transmission" else "reception")
            ++ "...\nCtrl+C to exit")]

/-- `main` after argument parsing (mode, bit rate and LED flag given):
validates the bit rate, resolves the two device paths, opens and primes the
management port, configures CAN, runs the LED check, opens the bus, runs
the session loop until `env` says it raises, then the handler and the
`finally` teardown.  Returns the event trace and the process outcome. -/
def mainRun (mode : String) (bit_rate : Int) (is_led : PyVal) (env : Env) :
    List Event × Outcome :=
  if bit_rate ∈ valid_bit_rates then
    match get_device_port MCU_VID_PID (some ".0") env.ports,
          get_device_port MCU_VID_PID (some ".2") env.ports with
    | some _, some _ =>
      (preLoopEvents mode bit_rate is_led env ++ loopEvents mode env
         ++ endEvents env.ending
         ++ teardownEvents (mgmtAfterLed bit_rate is_led env).1 is_led,
       Outcome.finished)
    | _, _ =>
      ([Event.portScan, Event.portScan, Event.printLine mcuNotFoundMsg],
       Outcome.exited 1)
  else
    ([Event.printLine invalidBitRateMsg], Outcome.exited 1)

/-! ### Concrete data for counter-evaluations and witnesses -/

/-- The frame built on the `n`-th send iteration. -/
def sentMessage (n : Nat) : CanMessage :=
  ⟨0x123, true, utf8 (payloadAt n)⟩

/-- An attached port whose hardware id contains the MCU signature. -/
def c1DemoPort : PortInfo :=
  { hwid := "USB VID:PID=353F:A101 SER=0001 LOCATION=1-2"
    location := "1-2"
    device := "/dev/ttyACM0" }

/-- The K800's two serial interfaces: management (location suffix `.0`)
and virtual CAN (suffix `.2`), sharing one vendor:product id. -/
def demoPorts : List PortInfo :=
  [⟨"USB VID:PID=353F:A101 LOCATION=1-2.0", "1-2.0", "/dev/ttyACM0"⟩,
   ⟨"USB VID:PID=353F:A101 LOCATION=1-2.2", "1-2.2", "/dev/ttyACM1"⟩]

/-- Environment with no ports attached and an immediately interrupted loop. -/
def demoEnv : Env :=
  ⟨[], [], 0, LoopEnd.interrupted, fun _ => ⟨0, false, []⟩⟩

/-- Environment where the loop raises an unexpected error after one
completed iteration. -/
def demoEnvErr : Env :=
  ⟨demoPorts, [], 1, LoopEnd.errored "boom", fun i => ⟨i, false, []⟩⟩

/-- Environment for a receive run that sees two frames and is then
interrupted. -/
def demoEnvRecv : Env :=
  ⟨demoPorts, [], 2, LoopEnd.interrupted, fun i => ⟨i, false, [i]⟩⟩

/-! ### Counter lemmas -/

lemma stateAt_succ (n : Nat) : stateAt (n + 1) = inc_dec_step (stateAt n) := by
  simp [stateAt, Function.iterate_succ_apply']

lemma stateAt_period_shift (n : Nat) : stateAt (n + 19) = stateAt (n + 1) := by
  induction n with
  | zero => decide
  | succ n ih =>
    have h1 : n + 1 + 19 = (n + 19) + 1 := by omega
    rw [h1, stateAt_succ, ih, ← stateAt_succ]

lemma outputAt_add_period (n : Nat) : outputAt (n + 18) = outputAt n := by
  have h : n + 18 + 1 = n + 19 := by omega
  rw [outputAt, h, stateAt_period_shift]
  rfl

lemma outputAt_lt18 : ∀ n < 18, outputAt n = trianglePattern.getD n 0 := by decide

lemma outputAt_spec (n : Nat) : outputAt n = trianglePattern.getD (n % 18) 0 := by
  induction n using Nat.strong_induction_on with
  | _ n ih =>
    by_cases h : n < 18
    · rw [Nat.mod_eq_of_lt h]
      exact outputAt_lt18 n h
    · obtain ⟨m, rfl⟩ : ∃ m, n = m + 18 := ⟨n - 18, by omega⟩
      rw [outputAt_add_period, ih m (by omega)]
      congr 1
      omega

lemma payloadAt_spec (n : Nat) : payloadAt n = payloadPattern.getD (n % 18) "" := by
  have key : ∀ r < 18,
      ("K800_" ++ toString (trianglePattern.getD r 0) : String) =
        payloadPattern.getD r "" := by decide
  have h : n % 18 < 18 := by omega
  rw [payloadAt, outputAt_spec]
  exact key (n % 18) h

lemma trianglePattern_bounds :
    ∀ r < 18, 0 ≤ trianglePattern.getD r 0 ∧ trianglePattern.getD r 0 ≤ 9 := by
  decide

/-! ### Send-loop lemmas -/

lemma inc_dec_data_string_eta (s : CounterState) :
    inc_dec_data_string 0 9 s =
      ("K800_" ++ toString ((inc_dec_step s).number), inc_dec_step s) := rfl

lemma inc_dec_data_string_stateAt (m : Nat) :
    inc_dec_data_string 0 9 (stateAt m) = (payloadAt m, stateAt (m + 1)) := by
  rw [inc_dec_data_string_eta, stateAt_succ, payloadAt, outputAt, stateAt_succ]

lemma sentOf_sendLoop (k m : Nat) :
    sentOf (sendLoop (stateAt m) k).1 =
      (List.range k).map (fun i => sentMessage (m + i)) := by
  induction k generalizing m with
  | zero => rfl
  | succ k ih =>
    rw [sendLoop, inc_dec_data_string_stateAt]
    simp only [sentOf, List.filterMap_cons]
    rw [show (sendLoop (stateAt (m + 1)) k).1.filterMap _ =
          sentOf (sendLoop (stateAt (m + 1)) k).1 from rfl, ih (m + 1)]
    rw [List.range_succ_eq_map]
    simp only [List.map_cons, List.map_map, Nat.add_zero, Function.comp]
    congr 1
    apply List.map_congr_left
    intro a _
    congr 1
    omega

/-! ### Trace-extraction lemmas -/

lemma sentOf_append (a b : List Event) :
    sentOf (a ++ b) = sentOf a ++ sentOf b := by
  simp [sentOf, List.filterMap_append]

lemma recvOf_append (a b : List Event) :
    recvOf (a ++ b) = recvOf a ++ recvOf b := by
  simp [recvOf, List.filterMap_append]

lemma loggedRecvOf_append (a b : List Event) :
    loggedRecvOf (a ++ b) = loggedRecvOf a ++ loggedRecvOf b := by
  simp [loggedRecvOf, List.filterMap_append]

lemma sentOf_recvTrace (f : Nat → CanMessage) (n : Nat) :
    sentOf (recvTrace f n) = [] := by
  induction n with
  | zero => rfl
  | succ n ih => rw [recvTrace, sentOf_append, ih]; rfl

lemma recvOf_recvTrace (f : Nat → CanMessage) (n : Nat) :
    recvOf (recvTrace f n) = (List.range n).map f := by
  induction n with
  | zero => rfl
  | succ n ih =>
    rw [recvTrace, recvOf_append, ih, List.range_succ, List.map_append]
    rfl

lemma loggedRecvOf_recvTrace (f : Nat → CanMessage) (n : Nat) :
    loggedRecvOf (recvTrace f n) = (List.range n).map f := by
  induction n with
  | zero => rfl
  | succ n ih =>
    rw [recvTrace, loggedRecvOf_append, ih, List.range_succ, List.map_append]
    rfl

lemma sentOf_set_led (p : MgmtPort) (t : Bool) (l : PyVal) (s : Bool) :
    sentOf (set_led_status p t l s).2 = [] := by
  unfold set_led_status
  split
  · rfl
  · cases s <;> rfl

lemma recvOf_set_led (p : MgmtPort) (t : Bool) (l : PyVal) (s : Bool) :
    recvOf (set_led_status p t l s).2 = [] := by
  unfold set_led_status
  split
  · rfl
  · cases s <;> rfl

lemma loggedRecvOf_set_led (p : MgmtPort) (t : Bool) (l : PyVal) (s : Bool) :
    loggedRecvOf (set_led_status p t l s).2 = [] := by
  unfold set_led_status
  split
  · rfl
  · cases s <;> rfl

lemma sentOf_endEvents (e : LoopEnd) : sentOf (endEvents e) = [] := by
  cases e <;> rfl

lemma recvOf_endEvents (e : LoopEnd) : recvOf (endEvents e) = [] := by
  cases e <;> rfl

lemma loggedRecvOf_endEvents (e : LoopEnd) : loggedRecvOf (endEvents e) = [] := by
  cases e <;> rfl

lemma sentOf_teardown (p : MgmtPort) (l : PyVal) :
    sentOf (teardownEvents p l) = [] := by
  rw [teardownEvents, sentOf_append, sentOf_append, sentOf_set_led]
  rfl

lemma recvOf_teardown (p : MgmtPort) (l : PyVal) :
    recvOf (teardownEvents p l) = [] := by
  rw [teardownEvents, recvOf_append, recvOf_append, recvOf_set_led]
  rfl

lemma loggedRecvOf_teardown (p : MgmtPort) (l : PyVal) :
    loggedRecvOf (teardownEvents p l) = [] := by
  rw [teardownEvents, loggedRecvOf_append, loggedRecvOf_append, loggedRecvOf_set_led]
  rfl

lemma sentOf_preLoop (mode : String) (bit_rate : Int) (is_led : PyVal) (env : Env) :
    sentOf (preLoopEvents mode bit_rate is_led env) = [] := by
  rw [preLoopEvents, sentOf_append, sentOf_append, sentOf_append,
    mgmtAfterLed, sentOf_set_led]
  rfl

lemma recvOf_preLoop (mode : String) (bit_rate : Int) (is_led : PyVal) (env : Env) :
    recvOf (preLoopEvents mode bit_rate is_led env) = [] := by
  rw [preLoopEvents, recvOf_append, recvOf_append, recvOf_append,
    mgmtAfterLed, recvOf_set_led]
  rfl

lemma loggedRecvOf_preLoop (mode : String) (bit_rate : Int) (is_led : PyVal) (env : Env) :
    loggedRecvOf (preLoopEvents mode bit_rate is_led env) = [] := by
  rw [preLoopEvents, loggedRecvOf_append, loggedRecvOf_append, loggedRecvOf_append,
    mgmtAfterLed, loggedRecvOf_set_led]
  rfl

/-! ### Claim theorems -/

/-- Claim C1, evaluated on the code: an attached port whose hardware id
contains the signature exists (and is first in sorted order), yet
`get_device_port` called with no location filter returns `none`, not that
port's device path — the `location and location in port.location` guard
also gates the `return port.device` statement, so the no-filter call can
never return a path. -/
theorem get_device_port_no_filter_eval :
    containsSub c1DemoPort.hwid MCU_VID_PID = true ∧
      sortPorts [c1DemoPort] = [c1DemoPort] ∧
      get_device_port MCU_VID_PID none [c1DemoPort] = none := by
  decide

/-- Claim C2 fails as stated: the very first transmitted payload is
`K800_1`, not `K800_0` (the first call moves the counter off 0 before
formatting). -/
theorem sendLoop_first_payload_ne_K800_0 :
    sentOf (sendLoop initState 1).1 =
      [CanMessage.mk 0x123 true (utf8 "K800_1")] ∧
      utf8 "K800_1" ≠ utf8 "K800_0" := by
  decide

/-- Claim C2 (amended): in send mode, the sequence of frame payloads
produced from the initial counter state (0, ascending) is the UTF-8 text
`K800_1, ..., K800_9, K800_8, ..., K800_0` repeating with period 18; in
particular the first transmitted payload is `K800_1`. -/
theorem sendLoop_payload_sequence (steps : Nat) :
    sentOf (sendLoop initState steps).1 =
      (List.range steps).map
        (fun n => CanMessage.mk 0x123 true (utf8 (payloadPattern.getD (n % 18) ""))) := by
  have h := sentOf_sendLoop steps 0
  rw [show stateAt 0 = initState from rfl] at h
  rw [h]
  apply List.map_congr_left
  intro n _
  simp [sentMessage, payloadAt_spec]

/-- Claim C3: starting from counter state (number = 0, ascending), the
`n`-th call of `inc_dec_data_string` with the default bounds returns the
`n`-th element of the repeating triangle wave
1,2,3,4,5,6,7,8,9,8,7,6,5,4,3,2,1,0,1,2,... over [0,9]. -/
theorem outputAt_triangle_wave (n : Nat) :
    outputAt n = trianglePattern.getD (n % 18) 0 :=
  outputAt_spec n

/-- Claim C4: for every bit rate outside {10,20,50,100,125,250,500,750,1000},
`main` (argument parsing bypassed) prints the error and exits with status 1,
and its trace contains no port enumeration and no device I/O. -/
theorem mainRun_invalid_bitrate_rejected (mode : String) (bit_rate : Int)
    (is_led : PyVal) (env : Env) (h : bit_rate ∉ valid_bit_rates) :
    (mainRun mode bit_rate is_led env).2 = Outcome.exited 1 ∧
      (mainRun mode bit_rate is_led env).1 = [Event.printLine invalidBitRateMsg] ∧
      ∀ e ∈ (mainRun mode bit_rate is_led env).1, deviceEffect e = false := by
  unfold mainRun
  rw [if_neg h]
  refine ⟨rfl, rfl, ?_⟩
  intro e he
  simp only [List.mem_singleton] at he
  subst he
  rfl

/-- Witness for C4: the concrete bit rate 3 is rejected. -/
theorem mainRun_invalid_bitrate_rejected_w :
    (mainRun "s" 3 (PyVal.pyStr "off") demoEnv).2 = Outcome.exited 1 ∧
      (mainRun "s" 3 (PyVal.pyStr "off") demoEnv).1 =
        [Event.printLine invalidBitRateMsg] ∧
      ∀ e ∈ (mainRun "s" 3 (PyVal.pyStr "off") demoEnv).1,
        deviceEffect e = false :=
  mainRun_invalid_bitrate_rejected "s" 3 (PyVal.pyStr "off") demoEnv (by decide)

/-- Claim C5: `configure_can` writes exactly the two command lines, the
mode-set line strictly before the baud-set line, each followed by its
100 ms settle delay, and then reads (and logs) exactly the bytes currently
buffered on the port, draining the buffer. -/
theorem configure_can_command_order (port : MgmtPort)
    (interface mode baud : String) :
    (configure_can port interface mode baud).2 =
      [Event.mgmtWrite (modeCmd interface mode), Event.sleep 100,
       Event.mgmtWrite (baudCmd interface baud), Event.sleep 100,
       Event.mgmtReadBuffered, Event.printBytes port.buffered] ∧
      (configure_can port interface mode baud).1.written =
        port.written ++ [modeCmd interface mode, baudCmd interface baud] ∧
      (configure_can port interface mode baud).1.buffered = [] := by
  unfold configure_can portWrite portRead inWaiting
  refine ⟨?_, ?_, ?_⟩ <;> simp

/-- Claim C6: whenever the session loop exits via an unexpected exception
(not only operator cancellation), the `finally` teardown still runs: the
trace ends with the CAN channel shutdown followed by the management port
close. -/
theorem mainRun_teardown_on_error (mode : String) (bit_rate : Int)
    (is_led : PyVal) (env : Env) (msg : String)
    (hb : bit_rate ∈ valid_bit_rates)
    (hm : ∃ d, get_device_port MCU_VID_PID (some ".0") env.ports = some d)
    (hv : ∃ d, get_device_port MCU_VID_PID (some ".2") env.ports = some d)
    (he : env.ending = LoopEnd.errored msg) :
    ∃ pre, (mainRun mode bit_rate is_led env).1 =
      pre ++ [Event.busShutdown, Event.portClose] := by
  obtain ⟨dm, hdm⟩ := hm
  obtain ⟨dv, hdv⟩ := hv
  refine ⟨preLoopEvents mode bit_rate is_led env ++ loopEvents mode env
      ++ endEvents env.ending
      ++ ([Event.sleep 1000, Event.resetInput, Event.resetOutput]
          ++ (set_led_status (mgmtAfterLed bit_rate is_led env).1
                true is_led false).2), ?_⟩
  unfold mainRun
  rw [if_pos hb, hdm, hdv]
  simp [teardownEvents, List.append_assoc]

/-- Witness for C6: a concrete receive run that errors after one frame
still ends with bus shutdown and port close. -/
theorem mainRun_teardown_on_error_w :
    ∃ pre, (mainRun "r" 1000 (PyVal.pyStr "off") demoEnvErr).1 =
      pre ++ [Event.busShutdown, Event.portClose] :=
  mainRun_teardown_on_error "r" 1000 (PyVal.pyStr "off") demoEnvErr "boom"
    (by decide) ⟨"/dev/ttyACM0", by decide⟩ ⟨"/dev/ttyACM1", by decide⟩ rfl

/-- Claim C7: in receive mode nothing is ever written to the CAN channel,
and every frame the bus delivers is logged, in arrival order, with no
filtering by arbitration id. -/
theorem mainRun_receive_no_send (bit_rate : Int) (is_led : PyVal) (env : Env)
    (hb : bit_rate ∈ valid_bit_rates)
    (hm : ∃ d, get_device_port MCU_VID_PID (some ".0") env.ports = some d)
    (hv : ∃ d, get_device_port MCU_VID_PID (some ".2") env.ports = some d) :
    sentOf (mainRun "r" bit_rate is_led env).1 = [] ∧
      recvOf (mainRun "r" bit_rate is_led env).1 =
        (List.range env.steps).map env.frames ∧
      loggedRecvOf (mainRun "r" bit_rate is_led env).1 =
        (List.range env.steps).map env.frames := by
  obtain ⟨dm, hdm⟩ := hm
  obtain ⟨dv, hdv⟩ := hv
  have hmode : ¬(("r" : String) = "s") := by decide
  unfold mainRun
  rw [if_pos hb, hdm, hdv]
  simp only [loopEvents, if_neg hmode]
  refine ⟨?_, ?_, ?_⟩
  · simp [sentOf_append, sentOf_preLoop, sentOf_recvTrace, sentOf_endEvents,
      sentOf_teardown]
  · simp [recvOf_append, recvOf_preLoop, recvOf_recvTrace, recvOf_endEvents,
      recvOf_teardown]
  · simp [loggedRecvOf_append, loggedRecvOf_preLoop, loggedRecvOf_recvTrace,
      loggedRecvOf_endEvents, loggedRecvOf_teardown]

/-- Witness for C7: a concrete receive run over two delivered frames. -/
theorem mainRun_receive_no_send_w :
    sentOf (mainRun "r" 500 (PyVal.pyStr "on") demoEnvRecv).1 = [] ∧
      recvOf (mainRun "r" 500 (PyVal.pyStr "on") demoEnvRecv).1 =
        (List.range demoEnvRecv.steps).map demoEnvRecv.frames ∧
      loggedRecvOf (mainRun "r" 500 (PyVal.pyStr "on") demoEnvRecv).1 =
        (List.range demoEnvRecv.steps).map demoEnvRecv.frames :=
  mainRun_receive_no_send 500 (PyVal.pyStr "on") demoEnvRecv (by decide)
    ⟨"/dev/ttyACM0", by decide⟩ ⟨"/dev/ttyACM1", by decide⟩

/-- Claim C8: every frame produced by the send loop carries the extended
arbitration id 0x123 and a payload that is the UTF-8 bytes of a string
`K800_<digit>` with the digit between 0 and 9. -/
theorem send_frames_id_and_payload (steps : Nat) (m : CanMessage)
    (hm : m ∈ sentOf (sendLoop initState steps).1) :
    m.arbitration_id = 0x123 ∧ m.is_extended_id = true ∧
      ∃ d : Int, 0 ≤ d ∧ d ≤ 9 ∧ m.data = utf8 ("K800_" ++ toString d) := by
  have h := sentOf_sendLoop steps 0
  rw [show stateAt 0 = initState from rfl] at h
  rw [h] at hm
  obtain ⟨n, _, rfl⟩ := List.mem_map.mp hm
  refine ⟨rfl, rfl, outputAt (0 + n), ?_, ?_, rfl⟩
  · rw [outputAt_spec]
    exact (trianglePattern_bounds _ (by omega)).1
  · rw [outputAt_spec]
    exact (trianglePattern_bounds _ (by omega)).2

/-- Witness for C8 on the first frame of a one-step send run. -/
theorem send_frames_id_and_payload_w :
    (CanMessage.mk 0x123 true (utf8 "K800_1")).arbitration_id = 0x123 ∧
      (CanMessage.mk 0x123 true (utf8 "K800_1")).is_extended_id = true ∧
      ∃ d : Int, 0 ≤ d ∧ d ≤ 9 ∧
        (CanMessage.mk 0x123 true (utf8 "K800_1")).data =
          utf8 ("K800_" ++ toString d) :=
  send_frames_id_and_payload 1 (CanMessage.mk 0x123 true (utf8 "K800_1"))
    (by decide)

/-- Claim C9: the bound 0 ≤ number ≤ 9 is an invariant of one step of
`inc_dec_data_string` at the default bounds, for either direction flag. -/
theorem inc_dec_invariant (s : CounterState)
    (h0 : 0 ≤ s.number) (h9 : s.number ≤ 9) :
    0 ≤ ((inc_dec_data_string 0 9 s).2).number ∧
      ((inc_dec_data_string 0 9 s).2).number ≤ 9 := by
  obtain ⟨n, b⟩ := s
  dsimp only [inc_dec_data_string] at *
  cases b <;> split_ifs <;> constructor <;> first | omega | simp_all

/-- Witness for C9 at the state (5, ascending). -/
theorem inc_dec_invariant_w :
    0 ≤ ((inc_dec_data_string 0 9 ⟨5, true⟩).2).number ∧
      ((inc_dec_data_string 0 9 ⟨5, true⟩).2).number ≤ 9 :=
  inc_dec_invariant ⟨5, true⟩ (by decide) (by decide)

/-- Claim C10: with the boolean default `is_led = False` (not the string
`'off'`) and a truthy port, `set_led_status` is not a no-op: the disabled
guard does not fire and all four `dio set LED0` writes are performed, each
followed by its delay. -/
theorem set_led_status_bool_false_not_noop (port : MgmtPort) (status : Bool) :
    (set_led_status port true (PyVal.pyBool false) status).2 =
      [Event.mgmtWrite (ledCommand 0 status), Event.sleep 100,
       Event.mgmtWrite (ledCommand 1 status), Event.sleep 100,
       Event.mgmtWrite (ledCommand 2 status), Event.sleep 100,
       Event.mgmtWrite (ledCommand 3 status), Event.sleep 100] ∧
      (set_led_status port true (PyVal.pyBool false) status).1.written =
        port.written ++ [ledCommand 0 status, ledCommand 1 status,
          ledCommand 2 status, ledCommand 3 status] := by
  have hg : ¬(PyVal.pyBool false = PyVal.pyStr "off" ∨ (true : Bool) = false) := by
    simp
  unfold set_led_status
  rw [if_neg hg]
  have hr : ledWrites status =
      [ledCommand 0 status, ledCommand 1 status,
       ledCommand 2 status, ledCommand 3 status] := rfl
  rw [hr]
  refine ⟨rfl, ?_⟩
  simp [portWrite]

end K800
